import Mathlib

/-!
Verification of the node-local NAT agent (neutron nat agent).

The definitions below are a shallow embedding of the Python sources:

* `neutron/agent/nat_agent.py`      — agent loop, `VnatCache`
* `neutron/agent/linux/nat_manager.py` — `LvsNatManager`, `IptablesNatManager`
* `neutron/db/nat_rpc_base.py`      — `NatRpcCallbackMixin.get_vserver`
* `neutron/db/nat_db.py`            — `NAT_db_mixin.create_vnat` / `delete_vnat`

Python dictionaries are modelled as association lists with unique keys
(`dictGet` / `dictInsert` / `dictDelete`), Python `None`-able strings as
`Option String`, Python truthiness of such values by `truthy`, and Python 2
byte-string comparison by lexicographic comparison on characters (`pyGe`).
Mutating methods that may raise are modelled as functions returning the
raised error (if any) together with the state at the moment of the raise,
mirroring the fact that a Python exception leaves earlier attribute
mutations in place.
-/

/-- Truthiness of an optional string in Python: `None` and `''` are falsy. -/
def truthy : Option String → Bool
  | none => false
  | some s => !s.isEmpty

/-- `d.get(k)` on a Python dict modelled as an association list. -/
def dictGet {α : Type} (d : List (String × α)) (k : String) : Option α :=
  (d.find? (fun p => p.1 == k)).map Prod.snd

/-- `d[k] = v` on a Python dict: overwrite in place, else append. -/
def dictInsert {α : Type} (d : List (String × α)) (k : String) (v : α) :
    List (String × α) :=
  if (d.find? (fun p => p.1 == k)).isSome then
    d.map (fun p => if p.1 == k then (k, v) else p)
  else
    d ++ [(k, v)]

/-- `del d[k]` / `d.pop(k)` on a Python dict (keys are unique). -/
def dictDelete {α : Type} (d : List (String × α)) (k : String) :
    List (String × α) :=
  d.filter (fun p => p.1 != k)

/-- Errors a modelled Python fragment can raise. -/
inductive PyErr where
  | keyError
  | indexError
  | typeError
  | rpcError
  deriving Repr, DecidableEq

/-- A vnat (binding) as the agent sees it: the `DictModel` wrapper around the
dict produced by `NAT_db_mixin._make_vnat_dict`.  Fields that can be SQL
`NULL` are `Option String`. -/
structure Vnat where
  id : String
  vnat_type : String
  fixed_ip_address : String
  fixed_port : Option String
  port_id : Option String
  vserver_id : Option String
  external_ip_address : Option String
  external_port : Option String
  gateway : Option String
  deriving Repr, DecidableEq

/-- `VnatCache` from `nat_agent.py` (lines 531-570): primary map `cache`
(id → vnat) and port index `port_lookup` (port id → list of vnat ids). -/
structure VnatCache where
  cache : List (String × Vnat)
  port_lookup : List (String × List String)
  deriving Repr, DecidableEq

/-- The deletion loop inside `VnatCache.remove`:

```
for i in range(0, len(vnats) - 1):
    if vnats[i] == vnat.id:
        del self.port_lookup[port_id][i]
```

The range `[0, len - 2]` is fixed before the loop; the list shrinks in
place as entries are deleted, so a later index access can raise
`IndexError`.  Takes the id to prune, the current bucket, and the
remaining indices; returns the raised error (if any) and the bucket as it
stands at that point. -/
def removeLoop (vid : String) : List String → List Nat →
    Option PyErr × List String
  | cur, [] => (none, cur)
  | cur, i :: rest =>
    match cur.get? i with
    | none => (some .indexError, cur)
    | some x =>
      if x == vid then removeLoop vid (cur.eraseIdx i) rest
      else removeLoop vid cur rest

/-- `VnatCache.remove` (`nat_agent.py` lines 562-570).  The `vnat` argument
is a real `DictModel` object at every call site, hence truthy, so the
`if vnat:` guard always takes the `del self.cache[vnat.id]` branch (which
raises `KeyError` when the id is absent).  Then the bucket for `port_id`
is fetched (raising `KeyError` when absent), the deletion loop runs over
the pre-computed index range, and the bucket is dropped if it ended up
empty. -/
def VnatCache.remove (c : VnatCache) (vnat : Vnat) (port_id : String) :
    Option PyErr × VnatCache :=
  match dictGet c.cache vnat.id with
  | none => (some .keyError, c)
  | some _ =>
    let c1 : VnatCache := { c with cache := dictDelete c.cache vnat.id }
    match dictGet c1.port_lookup port_id with
    | none => (some .keyError, c1)
    | some vnats =>
      let (err, vnats') := removeLoop vnat.id vnats (List.range (vnats.length - 1))
      let c2 : VnatCache :=
        { c1 with port_lookup := dictInsert c1.port_lookup port_id vnats' }
      match err with
      | some e => (some e, c2)
      | none =>
        if vnats'.isEmpty then
          (none, { c2 with port_lookup := dictDelete c2.port_lookup port_id })
        else (none, c2)

/-- `VnatCache.put` (`nat_agent.py` lines 551-560): when the id is already
cached, first call `remove` on the old entry with the *given* `port_id`,
then store the new object and append its id to the `port_id` bucket. -/
def VnatCache.put (c : VnatCache) (vnat : Vnat) (port_id : String) :
    Option PyErr × VnatCache :=
  let step : Option PyErr × VnatCache :=
    match dictGet c.cache vnat.id with
    | some old => c.remove old port_id
    | none => (none, c)
  match step with
  | (some e, c') => (some e, c')
  | (none, c') =>
    let c'' : VnatCache := { c' with cache := dictInsert c'.cache vnat.id vnat }
    let bucket : List String :=
      match dictGet c''.port_lookup port_id with
      | some l => l ++ [vnat.id]
      | none => [vnat.id]
    (none, { c'' with port_lookup := dictInsert c''.port_lookup port_id bucket })

/-- `VnatCache.get_vnats_by_port_id` (`nat_agent.py` lines 543-549):
returns `self.cache.get(id)` for every id in the port bucket (an absent
bucket yields `[]`; note `cache.get` can yield `None`). -/
def VnatCache.get_vnats_by_port_id (c : VnatCache) (port_id : String) :
    List (Option Vnat) :=
  match dictGet c.port_lookup port_id with
  | none => []
  | some ids => ids.map (dictGet c.cache)

/-- `LvsNatManager` (`nat_manager.py` lines 46-83): the staged batch is the
`rules` list of ipvsadm option strings. -/
structure LvsNatManager where
  rules : List String
  deriving Repr, DecidableEq

/-- `LvsNatManager.clear_all_rules`: stage `-C`. -/
def LvsNatManager.clear_all_rules (m : LvsNatManager) : LvsNatManager :=
  { m with rules := m.rules ++ ["-C"] }

/-- `LvsNatManager.add_nat_rule`: stage the virtual-service registration and
the real-server registration. -/
def LvsNatManager.add_nat_rule (m : LvsNatManager)
    (ext_ip ext_port fixed_ip fixed_port _gateway : String) : LvsNatManager :=
  { m with rules := m.rules ++
      ["-A -t " ++ ext_ip ++ ":" ++ ext_port ++ " -s rr",
       "-a -t " ++ ext_ip ++ ":" ++ ext_port ++ " -r " ++
         fixed_ip ++ ":" ++ fixed_port ++ " -m"] }

/-- `LvsNatManager.delete_nat_rule`: stage the two inverse commands. -/
def LvsNatManager.delete_nat_rule (m : LvsNatManager)
    (ext_ip ext_port fixed_ip fixed_port : String) : LvsNatManager :=
  { m with rules := m.rules ++
      ["-d -t " ++ ext_ip ++ ":" ++ ext_port ++ " -r " ++
         fixed_ip ++ ":" ++ fixed_port,
       "-D -t " ++ ext_ip ++ ":" ++ ext_port] }

/-- `LvsNatManager.add_user_rule`: stage a raw option string. -/
def LvsNatManager.add_user_rule (m : LvsNatManager) (rule : String) :
    LvsNatManager :=
  { m with rules := m.rules ++ [rule] }

/-- The `for rule in self.rules` loop of `LvsNatManager.apply`
(`nat_manager.py` lines 74-83).  `ex` is the privileged executor
collaborator: `ex args = false` models `self.execute` raising, which the
loop catches, logs and skips.  Returns the trace of attempted commands
with their outcome, in staging order. -/
def lvsApplyLoop (ex : List String → Bool) : List String →
    List (List String × Bool)
  | [] => []
  | r :: rest =>
    ("ipvsadm" :: r.splitOn " ", ex ("ipvsadm" :: r.splitOn " ")) ::
      lvsApplyLoop ex rest

/-- `LvsNatManager.apply`: run the loop over the staged batch, then
`self.rules = list()` unconditionally. -/
def LvsNatManager.apply (m : LvsNatManager) (ex : List String → Bool) :
    LvsNatManager × List (List String × Bool) :=
  ({ rules := [] }, lvsApplyLoop ex m.rules)

/-- `IptablesNatManager` (`nat_manager.py` lines 86-126): the staged state
of `iptables_manager.ipv4['nat']`, as a list of (chain, rule) pairs in
staging order. -/
structure IptablesNatManager where
  staged : List (String × String)
  deriving Repr, DecidableEq

/-- `IptablesNatManager._nat_rules` (`nat_manager.py` lines 99-106): the two
directives built from one binding.  String formatting follows the Python
`%` templates verbatim. -/
def IptablesNatManager.nat_rules
    (ext_ip ext_port fixed_ip fixed_port gateway : String) :
    List (String × String) :=
  [("PREROUTING",
    "-d " ++ ext_ip ++ " -p tcp -m tcp --dport " ++ ext_port ++
    " -j DNAT --to-destination " ++ fixed_ip ++ ":" ++ fixed_port),
   ("POSTROUTING",
    "-d " ++ fixed_ip ++ " -p tcp -m tcp --dport " ++ fixed_port ++
    " -j SNAT --to-source " ++ gateway)]

/-- `IptablesNatManager.add_nat_rule` (`nat_manager.py` lines 108-112):
stage both directives of `_nat_rules` in order. -/
def IptablesNatManager.add_nat_rule (m : IptablesNatManager)
    (ext_ip ext_port fixed_ip fixed_port gateway : String) :
    IptablesNatManager :=
  { m with staged := m.staged ++
      IptablesNatManager.nat_rules ext_ip ext_port fixed_ip fixed_port gateway }

/-- `IptablesNatManager.delete_nat_rule`: remove both directives of
`_nat_rules` from the staged set. -/
def IptablesNatManager.delete_nat_rule (m : IptablesNatManager)
    (ext_ip ext_port fixed_ip fixed_port gateway : String) :
    IptablesNatManager :=
  { m with staged := m.staged.filter (fun p =>
      !(IptablesNatManager.nat_rules ext_ip ext_port fixed_ip fixed_port
          gateway).contains p) }

/-- Boolean substring test: `hasSub pat s` holds iff `pat` occurs
contiguously in `s`. -/
def hasSub (pat s : String) : Bool :=
  (List.range (s.data.length + 1)).any
    (fun i => (s.data.drop i).take pat.data.length == pat.data)

/-- Python 2 `<` on byte strings: lexicographic comparison. -/
def pyLtChars : List Char → List Char → Bool
  | [], [] => false
  | [], _ :: _ => true
  | _ :: _, [] => false
  | a :: as, b :: bs =>
    if a.toNat < b.toNat then true
    else if b.toNat < a.toNat then false
    else pyLtChars as bs

/-- Python 2 `>=` on byte strings. -/
def pyGe (a b : String) : Bool := !pyLtChars a.data b.data

/-- The character for a decimal digit. -/
def digitChar (d : Nat) : Char := Char.ofNat (48 + d)

/-- The decimal digit for a character. -/
def charDigit (c : Char) : Nat := c.toNat - 48

/-- Little-endian decimal digits of `n`, with explicit fuel so that the
recursion is structural (`fuel ≥ n` suffices). -/
def natDigitsRev : Nat → Nat → List Nat
  | 0, _ => []
  | fuel + 1, n => if n = 0 then [] else (n % 10) :: natDigitsRev fuel (n / 10)

/-- Python `str` on a non-negative integer (decimal). -/
def strOfNat (n : Nat) : String :=
  if n = 0 then "0" else ⟨((natDigitsRev n n).reverse.map digitChar)⟩

/-- Python `int` on a decimal digit string (the only inputs the program
feeds it). -/
def natOfStr (s : String) : Nat :=
  Nat.ofDigits 10 ((s.data.map charDigit).reverse)

/-- A vserver row of the `vservers` table (`nat_db.py` lines 39-44).
`external_port` is a string column, so the comparisons performed on it by
`get_vserver` are Python 2 string comparisons. -/
structure VServer where
  id : String
  external_ip_address : String
  external_port : String
  admin_state_up : Bool
  deriving Repr, DecidableEq

/-- The scan loop of `NatRpcCallbackMixin.get_vserver`
(`nat_rpc_base.py` lines 177-184):

```
for vs in vservers:
    if not vs['admin_state_up']:
        vserver = vs; plugin.update_vserver(...); break
    if vs['external_port'] >= ext_port:
        ext_port = vs['external_port']
```

Returns the reclaimed vserver (if the loop broke) and the final
`ext_port`. -/
def scanVservers : List VServer → String → Option VServer × String
  | [], p => (none, p)
  | vs :: rest, p =>
    if !vs.admin_state_up then (some vs, p)
    else if pyGe vs.external_port p then scanVservers rest vs.external_port
    else scanVservers rest p

/-- `plugin.update_vserver(id, admin_state_up=True)` applied to the table. -/
def markVserverUp (db : List VServer) (vsid : String) : List VServer :=
  db.map (fun w => if w.id == vsid then { w with admin_state_up := true } else w)

/-- `NatRpcCallbackMixin.get_vserver` (`nat_rpc_base.py` lines 169-196).
`db` is the `vservers` table; `plugin.get_vservers` with the
`external_ip_address` filter is the `filter` below; `new_id` is the uuid a
created row receives.  When no administratively-down vserver is found the
new row's port is `str(int(ext_port) + 1)` where `ext_port` is the result
of the string-compared scan.  Returns the vserver dict handed back to the
caller and the updated table. -/
def get_vserver (db : List VServer) (new_id ext_ip ext_port : String) :
    VServer × List VServer :=
  let vservers := db.filter (fun vs => vs.external_ip_address == ext_ip)
  match scanVservers vservers ext_port with
  | (some vs, _) => (vs, markVserverUp db vs.id)
  | (none, p) =>
    let new_port := strOfNat (natOfStr p + 1)
    let nvs : VServer :=
      { id := new_id, external_ip_address := ext_ip,
        external_port := new_port, admin_state_up := true }
    (nvs, db ++ [nvs])

/-- A row of the `vnats` table (`nat_db.py` lines 47-68), in the dict shape
produced by `_make_vnat_dict`. -/
structure VnatRec where
  id : String
  tenant_id : String
  external_ip_address : Option String
  external_port : Option String
  vserver_id : Option String
  status : String
  admin_state_up : Bool
  shared : Bool
  vnat_type : String
  device_id : Option String
  port_id : Option String
  fixed_ip_address : String
  gateway : Option String
  fixed_port : Option String
  deriving Repr, DecidableEq

/-- The plugin database state used by the `NAT_db_mixin` operations. -/
structure DbState where
  vnats : List VnatRec
  vservers : List VServer
  deriving Repr, DecidableEq

/-- Notifications cast to agents by the db layer. -/
inductive Notif where
  | vnat_created (vnat_id : String)
  | vnat_deleted (vnat_id : String) (host : String)
  deriving Repr, DecidableEq

/-- Exceptions raised by the `NAT_db_mixin` operations. -/
inductive NatErr where
  | vnatNotFound
  | vserverNotFound
  deriving Repr, DecidableEq

/-- The `vnat` input dict of `NAT_db_mixin.create_vnat` as assembled by its
callers (`nat_rpc_base.py` lines 144-151 pass no `vserver_id`/`status`
keys; `none` models an absent or `None` entry). -/
structure VnatIn where
  fixed_ip_address : String
  fixed_port : Option String
  port_id : Option String
  vnat_type : String
  device_id : Option String
  shared : Bool
  admin_state_up : Bool
  vserver_id : Option String
  status : Option String
  deriving Repr, DecidableEq

/-- The vserver-resolution prologue of `NAT_db_mixin.create_vnat`
(`nat_db.py` lines 199-206): when the request carries a truthy
`vserver_id`, fetch that vserver (raising `VserverNotFound` when absent)
and inherit its external endpoint. -/
def resolveVserver (db : DbState) (vn : VnatIn) :
    Except NatErr (Option String × Option String × Option String) :=
  if truthy vn.vserver_id then
    match vn.vserver_id with
    | some vsid =>
      match db.vservers.find? (fun w => w.id == vsid) with
      | some vs => .ok (some vsid, some vs.external_ip_address,
                        some vs.external_port)
      | none => .error .vserverNotFound
    | none => .ok (none, none, none)
  else .ok (none, none, none)

/-- The duplicate filter of `NAT_db_mixin.create_vnat` (`nat_db.py` lines
210-212): an existing row matches when both its fixed IP and its fixed
port equal the requested ones. -/
def vnatMatches (vn : VnatIn) (r : VnatRec) : Bool :=
  r.fixed_ip_address == vn.fixed_ip_address && r.fixed_port == vn.fixed_port

/-- `NAT_db_mixin.create_vnat` (`nat_db.py` lines 188-236).  `vn_id` and
`tenant_id` stand for the uuids generated there.  When a row with the same
fixed IP and fixed port exists, the first such row is returned and nothing
else happens; otherwise the row is inserted and a `vnat.create.end`
notification is cast exactly when both `fixed_ip_address` and
`fixed_port` of the created dict are truthy. -/
def create_vnat (db : DbState) (vn_id tenant_id : String) (vn : VnatIn) :
    Except NatErr (VnatRec × DbState × List Notif) :=
  match resolveVserver db vn with
  | .error e => .error e
  | .ok (vsid, eip, eport) =>
    let status := vn.status.getD "ACTIVE"
    match (db.vnats.filter (vnatMatches vn)).head? with
    | some v => .ok (v, db, [])
    | none =>
      let vrec : VnatRec :=
        { id := vn_id, tenant_id := tenant_id, vserver_id := vsid,
          device_id := vn.device_id, port_id := vn.port_id,
          external_ip_address := eip, external_port := eport,
          fixed_ip_address := vn.fixed_ip_address,
          fixed_port := vn.fixed_port,
          admin_state_up := vn.admin_state_up, vnat_type := vn.vnat_type,
          shared := vn.shared, status := status, gateway := none }
      let db' : DbState := { db with vnats := db.vnats ++ [vrec] }
      let notifs :=
        if !vrec.fixed_ip_address.isEmpty && truthy vrec.fixed_port then
          [Notif.vnat_created vrec.id]
        else []
      .ok (vrec, db', notifs)

/-- `NAT_db_mixin.delete_vnat` (`nat_db.py` lines 247-260).  `agents` is
the list of agent hosts returned by `list_nat_agents_hosting_vnat`.  The
vnat row is fetched (raising `VnatNotFound` when absent); a
`vnat.delete.end` notification is cast per hosting agent when the vnat has
a truthy `vserver_id`; in that case the referenced vserver also has its
`admin_state_up` cleared — unconditionally, with no check for other vnats
referencing it (`update_vserver` raises `VserverNotFound` when the row is
absent); finally the vnat row itself is deleted.  The vserver row is never
deleted. -/
def delete_vnat (db : DbState) (id : String) (agents : List String) :
    Except NatErr (DbState × List Notif) :=
  match db.vnats.find? (fun r => r.id == id) with
  | none => .error .vnatNotFound
  | some vnat =>
    let notifs :=
      if truthy vnat.vserver_id then
        agents.map (fun a => Notif.vnat_deleted vnat.id a)
      else []
    let vservers' : Except NatErr (List VServer) :=
      if truthy vnat.vserver_id then
        match vnat.vserver_id with
        | some vsid =>
          match db.vservers.find? (fun w => w.id == vsid) with
          | some _ =>
            .ok (db.vservers.map (fun w =>
              if w.id == vsid then { w with admin_state_up := false } else w))
          | none => .error .vserverNotFound
        | none => .ok db.vservers
      else .ok db.vservers
    match vservers' with
    | .error e => .error e
    | .ok vss =>
      .ok ({ vnats := db.vnats.eraseP (fun r => r.id == id),
             vservers := vss }, notifs)

/-- `constants.VNAT_TYPE_HYPER`.  Modelled from the spec: the constants
module is not part of this repository; the spec's binding `kind` values
are {instance, hypervisor}.  Only equality against this tag matters to the
loop. -/
def VNAT_TYPE_HYPER : String := "hypervisor"

/-- An effect on the node's rule state through the nat manager. -/
inductive NatMgrOp where
  | addRule (ext_ip ext_port fixed_ip fixed_port gateway : Option String)
  | delRule (ext_ip ext_port fixed_ip fixed_port gateway : Option String)
  | applyBatch
  deriving Repr, DecidableEq

/-- Remote and local effects observable during one agent operation. -/
structure SyncTrace where
  /-- ids passed to the `plugin_rpc.delete_vnat` remote call, in order. -/
  deleted : List String
  /-- `plugin_rpc.update_vnat` calls (vnat id, status) issued. -/
  updated : List (String × String)
  /-- nat-manager staging and apply operations performed. -/
  nat_ops : List NatMgrOp
  deriving Repr, DecidableEq

/-- The empty trace. -/
def SyncTrace.empty : SyncTrace := { deleted := [], updated := [], nat_ops := [] }

/-- The collaborators of one execution of `_sync_vnats_task_body`, as
oracles: each RPC either returns a value or raises. -/
structure SyncEnv where
  /-- result of `plugin_rpc.get_active_vnats()` (full desired-state pull). -/
  active_vnats : Except PyErr (List Vnat)
  /-- result of `plugin_rpc.get_active_vnats(ext_ip=self.ext_ip)`
  (host-scoped pull). -/
  ext_vnats : Except PyErr (List Vnat)
  /-- whether `plugin_rpc.delete_vnat(id)` succeeds (`false` = raises). -/
  delete_ok : String → Bool
  /-- the gateway-interface convergence pass (`nat_agent.py` lines
  409-440), abstracted to its success or failure given the collected port
  ids; it performs interface and RPC operations only, never a nat-manager
  rule mutation. -/
  gateway_phase : List String → Except PyErr Unit
  /-- `self.conf.console_enabled`. -/
  console_enabled : Bool
  /-- the console-vnat pass (`nat_agent.py` lines 442-460), abstracted to
  the compute hosts it appends given the current tracked hosts; it issues
  `create_vnat` RPCs only, never a nat-manager rule mutation. -/
  console_phase : List String → Except PyErr (List String)

/-- The agent attributes touched by the loop. -/
structure AgentState where
  needs_resync : Bool
  compute_hosts : List String
  vnat_info : List Vnat
  deriving Repr

/-- The `for vnat in active_vnats` pass (`nat_agent.py` lines 392-404).
Threads the tracked compute hosts, the host-scoped dict `all_vnats` and
the collected `port_ids`.  For a vnat whose `vserver_id` is not truthy the
code calls `self._process_created_vnat(vnat.id, vnat.fixed_ip_address,
vnat.fixed_port)` — three arguments for a method
(`_process_created_vnat(self, vnat_id, fixed_ip, fixed_port, gateway,
device_id=None)`, line 300) that requires four, so Python raises
`TypeError` before any body of that method runs; the raise is modelled
here. -/
def mainLoop : List Vnat → List String → List (String × Vnat) →
    List String →
    Option PyErr × List String × List (String × Vnat) × List String
  | [], hosts, all, ports => (none, hosts, all, ports)
  | v :: rest, hosts, all, ports =>
    let hosts :=
      if v.vnat_type == VNAT_TYPE_HYPER then hosts ++ [v.fixed_ip_address]
      else hosts
    let step : List (String × Vnat) × List String :=
      if (dictGet all v.id).isSome then
        (dictDelete all v.id,
         match v.port_id with
         | some pid => if !pid.isEmpty then ports ++ [pid] else ports
         | none => ports)
      else (all, ports)
    if !truthy v.vserver_id then (some .typeError, hosts, step.1, step.2)
    else mainLoop rest hosts step.1 step.2

/-- The `for vnat_id in all_vnats: plugin_rpc.delete_vnat(vnat_id)` pass
(`nat_agent.py` lines 405-407).  Returns the raised error (if any) and
the ids successfully deleted remotely. -/
def deleteLoop (ok : String → Bool) : List String → Option PyErr × List String
  | [] => (none, [])
  | i :: rest =>
    if ok i then
      let (e, done) := deleteLoop ok rest
      (e, i :: done)
    else (some .rpcError, [])

/-- Build the `all_vnats` dict from the host-scoped pull
(`nat_agent.py` lines 388-391). -/
def dictOfVnats (vs : List Vnat) : List (String × Vnat) :=
  vs.foldl (fun d v => dictInsert d v.id v) []

/-- The `try:` block of `NatAgent._sync_vnats_task_body`
(`nat_agent.py` lines 384-461): full pull, host-scoped pull, main pass,
stale-vnat deletion pass, gateway convergence, optional console pass, and
finally `self.needs_resync = False`.  Returns the raised error (if any),
the agent state at that point, and the trace of effects performed before
it. -/
def sync_body_inner (env : SyncEnv) (s : AgentState) :
    Option PyErr × AgentState × SyncTrace :=
  match env.active_vnats with
  | .error e => (some e, s, SyncTrace.empty)
  | .ok active =>
    let s1 : AgentState := { s with vnat_info := active }
    match env.ext_vnats with
    | .error e => (some e, s1, SyncTrace.empty)
    | .ok ext =>
      match mainLoop active s1.compute_hosts (dictOfVnats ext) [] with
      | (some e, hosts, _, _) =>
        (some e, { s1 with compute_hosts := hosts }, SyncTrace.empty)
      | (none, hosts, allRemaining, port_ids) =>
        let s2 : AgentState := { s1 with compute_hosts := hosts }
        match deleteLoop env.delete_ok (allRemaining.map Prod.fst) with
        | (some e, done) => (some e, s2, { SyncTrace.empty with deleted := done })
        | (none, done) =>
          let tr : SyncTrace := { SyncTrace.empty with deleted := done }
          match env.gateway_phase port_ids with
          | .error e => (some e, s2, tr)
          | .ok _ =>
            if env.console_enabled then
              match env.console_phase s2.compute_hosts with
              | .error e => (some e, s2, tr)
              | .ok hs =>
                (none, { s2 with compute_hosts := s2.compute_hosts ++ hs,
                                 needs_resync := false }, tr)
            else (none, { s2 with needs_resync := false }, tr)

/-- `NatAgent._sync_vnats_task_body` (`nat_agent.py` lines 383-464): the
whole body is wrapped in `try: ... except:`; the bare `except` catches
every exception, logs it and sets `self.needs_resync = True`.  The
function is total: no exception escapes to the caller. -/
def sync_vnats_task_body (env : SyncEnv) (s : AgentState) :
    AgentState × SyncTrace :=
  match sync_body_inner env s with
  | (some _, s', tr) => ({ s' with needs_resync := true }, tr)
  | (none, s', tr) => (s', tr)

/-- `NatAgent._process_created_vnat` as defined (`nat_agent.py` lines
300-317), reachable only through the notification handler
`vnat_create_end`, which passes all four required arguments: obtain a
vserver for the configured external address, update the binding remotely
with the assigned endpoint and `status='ACTIVE'`, stage its rule pair and
apply, and set `needs_resync = True`.  `vsdb` is the control-plane
vserver table and `new_id` the uuid a created vserver would receive. -/
def process_created_vnat (vsdb : List VServer) (new_id ext_ip ext_port : String)
    (vnat_id : String) (fixed_ip : String) (fixed_port : Option String)
    (gateway : String) (s : AgentState) :
    AgentState × List VServer × SyncTrace :=
  let (vserver, vsdb') := get_vserver vsdb new_id ext_ip ext_port
  let tr : SyncTrace :=
    { deleted := [],
      updated := [(vnat_id, "ACTIVE")],
      nat_ops :=
        [NatMgrOp.addRule (some ext_ip) (some vserver.external_port)
          (some fixed_ip) fixed_port (some gateway),
         NatMgrOp.applyBatch] }
  ({ s with needs_resync := true }, vsdb', tr)

/-- `NatAgent._process_deleted_vnat` (`nat_agent.py` lines 352-360),
reachable only through the notification handler `vnat_delete_end`: remove
the binding's rule pair using its recorded endpoints, apply, and set
`needs_resync = True`. -/
def process_deleted_vnat (vnat : Vnat) (s : AgentState) :
    AgentState × SyncTrace :=
  ({ s with needs_resync := true },
   { deleted := [], updated := [],
     nat_ops :=
       [NatMgrOp.delRule vnat.external_ip_address vnat.external_port
          (some vnat.fixed_ip_address) vnat.fixed_port vnat.gateway,
        NatMgrOp.applyBatch] })

/-! ## Theorems -/

/-- C1: during a reconciliation tick, a binding with no vserver assigned
(`vserver_id` null) is *not* processed as newly created: the call at
`nat_agent.py:402` passes three arguments to `_process_created_vnat`,
which requires four (`gateway` is missing), so Python raises `TypeError`;
the blanket `except` converts it to `needs_resync = True` and no remote
update, no rule staging and no apply happen — the tick does not complete
without error.  Evaluated at the spec's own scenario input. -/
theorem C1_sync_tick_created_vnat_typeerror :
    let b1 : Vnat :=
      { id := "b1", vnat_type := "instance", fixed_ip_address := "10.0.0.5",
        fixed_port := some "80", port_id := none, vserver_id := none,
        external_ip_address := none, external_port := none, gateway := none }
    let env : SyncEnv :=
      { active_vnats := .ok [b1], ext_vnats := .ok [],
        delete_ok := fun _ => true, gateway_phase := fun _ => .ok (),
        console_enabled := false, console_phase := fun _ => .ok [] }
    let s0 : AgentState :=
      { needs_resync := true, compute_hosts := [], vnat_info := [] }
    (sync_body_inner env s0).1 = some PyErr.typeError ∧
    (sync_vnats_task_body env s0).1.needs_resync = true ∧
    (sync_vnats_task_body env s0).2.updated = [] ∧
    (sync_vnats_task_body env s0).2.nat_ops = [] ∧
    (sync_vnats_task_body env s0).2.deleted = [] := by
  decide

/-- C2: `VnatCache.remove` fails to prune the id when it is the last
member of its port bucket: the loop runs over `range(0, len - 1)` and so
never examines the final position.  On a singleton bucket the call
returns without error, deletes the primary-map entry, but leaves the
bucket `["a"]` in place (neither pruned nor deleted), and `getByPort`
still reports an entry for the removed binding. -/
theorem C2_remove_last_member_not_pruned :
    let va : Vnat :=
      { id := "a", vnat_type := "instance", fixed_ip_address := "10.0.0.5",
        fixed_port := some "80", port_id := some "p",
        vserver_id := some "vs1", external_ip_address := some "198.51.100.1",
        external_port := some "10001", gateway := some "10.0.0.1" }
    let c : VnatCache := { cache := [("a", va)], port_lookup := [("p", ["a"])] }
    (c.remove va "p").1 = none ∧
    dictGet (c.remove va "p").2.port_lookup "p" = some ["a"] ∧
    dictGet (c.remove va "p").2.cache "a" = none ∧
    (c.remove va "p").2.get_vnats_by_port_id "p" = [none] := by
  decide

/-- C7: `VnatCache.put` on an id already in the cache does not remove the
old entry's port association.  Re-putting the binding under a new port
id calls `remove` with the *new* port id: the primary-map entry is
deleted, then the lookup of the new port's bucket raises `KeyError`,
leaving the cache with the id `"a"` still present in the old port bucket
but absent from the primary map — the claimed invariant is violated. -/
theorem C7_put_cross_port_keyerror :
    let va : Vnat :=
      { id := "a", vnat_type := "instance", fixed_ip_address := "10.0.0.5",
        fixed_port := some "80", port_id := some "p1",
        vserver_id := some "vs1", external_ip_address := some "198.51.100.1",
        external_port := some "10001", gateway := some "10.0.0.1" }
    let vb : Vnat :=
      { id := "a", vnat_type := "instance", fixed_ip_address := "10.0.0.6",
        fixed_port := some "80", port_id := some "p2",
        vserver_id := some "vs1", external_ip_address := some "198.51.100.1",
        external_port := some "10001", gateway := some "10.0.0.1" }
    let c0 : VnatCache := { cache := [], port_lookup := [] }
    (c0.put va "p1") =
      (none, { cache := [("a", va)], port_lookup := [("p1", ["a"])] }) ∧
    ((c0.put va "p1").2.put vb "p2").1 = some PyErr.keyError ∧
    ((c0.put va "p1").2.put vb "p2").2.cache = [] ∧
    ((c0.put va "p1").2.put vb "p2").2.port_lookup = [("p1", ["a"])] := by
  decide

/-- C5: the LVS backend's `apply` attempts every staged command exactly
once, in staging order, regardless of which executor calls fail (a
failing command is caught and skipped, the remaining commands still run),
and the staged batch is emptied afterwards whatever the outcomes. -/
theorem C5_lvs_apply_best_effort (m : LvsNatManager) (ex : List String → Bool) :
    ((m.apply ex).2.map Prod.fst =
       m.rules.map (fun r => "ipvsadm" :: r.splitOn " ")) ∧
    ((m.apply ex).2.map Prod.snd =
       m.rules.map (fun r => ex ("ipvsadm" :: r.splitOn " "))) ∧
    (m.apply ex).1.rules = [] := by
  refine ⟨?_, ?_, rfl⟩
  · show (lvsApplyLoop ex m.rules).map Prod.fst = _
    induction m.rules with
    | nil => rfl
    | cons r rest ih => simp [lvsApplyLoop, ih]
  · show (lvsApplyLoop ex m.rules).map Prod.snd = _
    induction m.rules with
    | nil => rfl
    | cons r rest ih => simp [lvsApplyLoop, ih]

/-- `String.data` distributes over append. -/
theorem data_app (a b : String) : (a ++ b).data = a.data ++ b.data := rfl

/-- If a pattern occurs contiguously in `s` (witnessed by a decomposition),
then `hasSub` detects it. -/
theorem hasSub_of_decomp (pat s : String) (p t : List Char)
    (h : s.data = p ++ pat.data ++ t) : hasSub pat s = true := by
  unfold hasSub
  apply List.any_eq_true.mpr
  refine ⟨p.length, List.mem_range.mpr ?_, ?_⟩
  · have : s.data.length = p.length + pat.data.length + t.length := by
      simp [h]; omega
    omega
  · rw [h, List.append_assoc, List.drop_left, List.take_left]
    simp

/-- C6 counterexample: at the spec's scenario input the second staged
directive is the POSTROUTING rule
`-d 10.0.0.5 -p tcp -m tcp --dport 80 -j SNAT --to-source 10.0.0.1`,
which contains no source match `-s 10.0.0.5` anywhere: the SNAT rule
matches the *destination* fixed endpoint (the post-DNAT destination), not
the source fixed endpoint as the claim states. -/
theorem C6_counterexample_snat_matches_destination :
    let m := (IptablesNatManager.mk []).add_nat_rule
      "198.51.100.1" "10001" "10.0.0.5" "80" "10.0.0.1"
    let snat := "-d 10.0.0.5 -p tcp -m tcp --dport 80 -j SNAT --to-source 10.0.0.1"
    m.staged.length = 2 ∧
    m.staged.get? 1 = some ("POSTROUTING", snat) ∧
    (∃ t, snat.data = ("-d 10.0.0.5 ").data ++ t) ∧
    ¬ (∃ p t : List Char, snat.data = p ++ ("-s 10.0.0.5").data ++ t) := by
  refine ⟨by decide, by decide,
    ⟨("-p tcp -m tcp --dport 80 -j SNAT --to-source 10.0.0.1").data, by decide⟩,
    ?_⟩
  rintro ⟨p, t, h⟩
  exact absurd (hasSub_of_decomp "-s 10.0.0.5" _ p t h) (by decide)

/-- C6 (amended): every `add_nat_rule` stages exactly two directives, in
order: a PREROUTING rule matching the destination external endpoint
(`-d ext_ip ... --dport ext_port`) and rewriting to the fixed endpoint
(`-j DNAT --to-destination fixed_ip:fixed_port`), and a POSTROUTING rule
matching the *destination* fixed endpoint (`-d fixed_ip ... --dport
fixed_port`, the destination after DNAT) — not the source — and rewriting
the source to the gateway (`-j SNAT --to-source gateway`). -/
theorem C6_add_nat_rule_stages_dnat_and_dest_snat (m : IptablesNatManager)
    (ext_ip ext_port fixed_ip fixed_port gateway : String) :
    ∃ dnat snat,
      (m.add_nat_rule ext_ip ext_port fixed_ip fixed_port gateway).staged =
        m.staged ++ [("PREROUTING", dnat), ("POSTROUTING", snat)] ∧
      (∃ t, dnat.data = ("-d " ++ ext_ip ++ " ").data ++ t) ∧
      (∃ p q, dnat.data = p ++ ("--dport " ++ ext_port ++ " ").data ++ q) ∧
      (∃ p, dnat.data =
        p ++ ("-j DNAT --to-destination " ++ fixed_ip ++ ":" ++ fixed_port).data) ∧
      (∃ t, snat.data = ("-d " ++ fixed_ip ++ " ").data ++ t) ∧
      (∃ p q, snat.data = p ++ ("--dport " ++ fixed_port ++ " ").data ++ q) ∧
      (∃ p, snat.data = p ++ ("-j SNAT --to-source " ++ gateway).data) := by
  refine ⟨_, _, rfl, ?_, ?_, ?_, ?_, ?_, ?_⟩
  · refine ⟨("-p tcp -m tcp --dport " ++ ext_port ++
      " -j DNAT --to-destination " ++ fixed_ip ++ ":" ++ fixed_port).data, ?_⟩
    simp only [data_app, List.append_assoc]; rfl
  · refine ⟨("-d " ++ ext_ip ++ " -p tcp -m tcp ").data,
      ("-j DNAT --to-destination " ++ fixed_ip ++ ":" ++ fixed_port).data, ?_⟩
    simp only [data_app, List.append_assoc]; rfl
  · refine ⟨("-d " ++ ext_ip ++ " -p tcp -m tcp --dport " ++ ext_port ++
      " ").data, ?_⟩
    simp only [data_app, List.append_assoc]; rfl
  · refine ⟨("-p tcp -m tcp --dport " ++ fixed_port ++
      " -j SNAT --to-source " ++ gateway).data, ?_⟩
    simp only [data_app, List.append_assoc]; rfl
  · refine ⟨("-d " ++ fixed_ip ++ " -p tcp -m tcp ").data,
      ("-j SNAT --to-source " ++ gateway).data, ?_⟩
    simp only [data_app, List.append_assoc]; rfl
  · refine ⟨("-d " ++ fixed_ip ++ " -p tcp -m tcp --dport " ++ fixed_port ++
      " ").data, ?_⟩
    simp only [data_app, List.append_assoc]; rfl

/-- On success, the `try:` block's last statement has set
`needs_resync = False`. -/
theorem sync_body_inner_success_flag (env : SyncEnv) (s : AgentState)
    (s' : AgentState) (tr : SyncTrace)
    (h : sync_body_inner env s = (none, s', tr)) :
    s'.needs_resync = false := by
  unfold sync_body_inner at h
  rcases h1 : env.active_vnats with e | active <;> rw [h1] at h
  · simp at h
  rcases h2 : env.ext_vnats with e | ext <;> rw [h2] at h
  · simp at h
  dsimp only at h
  rcases hm : mainLoop active s.compute_hosts (dictOfVnats ext) [] with
    ⟨e0, hosts, allR, ports⟩
  rw [hm] at h
  rcases e0 with _ | e0 <;> dsimp only at h
  · rcases hd : deleteLoop env.delete_ok (allR.map Prod.fst) with ⟨e1, done⟩
    rw [hd] at h
    rcases e1 with _ | e1 <;> dsimp only at h
    · rcases hg : env.gateway_phase ports with e | u <;> rw [hg] at h
      · simp at h
      by_cases hc : env.console_enabled <;> simp only [hc] at h
      · rcases hp : env.console_phase hosts with e | hs <;> rw [hp] at h
        · simp at h
        simp at h
        rw [← h.1]
      · simp at h
        rw [← h.1]
    · simp at h
  · simp at h

/-- C4: after any execution of `_sync_vnats_task_body`, `needs_resync` is
`false` iff the `try:` block ran to completion without raising; every
exception raised inside the body is caught (the wrapper is a total
function — nothing propagates) and leaves `needs_resync = true`. -/
theorem C4_needs_resync_iff_no_exception (env : SyncEnv) (s : AgentState) :
    ((sync_vnats_task_body env s).1.needs_resync = false ↔
      (sync_body_inner env s).1 = none) ∧
    (∀ e, (sync_body_inner env s).1 = some e →
      (sync_vnats_task_body env s).1.needs_resync = true) := by
  rcases h : sync_body_inner env s with ⟨err, s', tr⟩
  rcases err with _ | e
  · have hf : s'.needs_resync = false :=
      sync_body_inner_success_flag env s s' tr h
    unfold sync_vnats_task_body
    rw [h]
    dsimp only
    exact ⟨by simp [hf], by intro e he; simp at he⟩
  · unfold sync_vnats_task_body
    rw [h]
    dsimp only
    exact ⟨by simp, by intro e' he'; rfl⟩

/-- Deleting one key leaves lookups of other keys unchanged. -/
theorem dictGet_dictDelete_ne {α : Type} (d : List (String × α))
    (k k' : String) (h : k' ≠ k) :
    dictGet (dictDelete d k) k' = dictGet d k' := by
  induction d with
  | nil => rfl
  | cons p rest ih =>
    simp only [dictGet, dictDelete] at ih ⊢
    by_cases hpk : p.1 = k
    · rw [@List.filter_cons_of_neg _ (fun q : String × α => q.1 != k) p rest
        (by simp [bne, hpk])]
      rw [@List.find?_cons_of_neg _ (fun q : String × α => q.1 == k') p rest
        (by simp [hpk]; exact fun hh => h hh.symm)]
      exact ih
    · rw [@List.filter_cons_of_pos _ (fun q : String × α => q.1 != k) p rest
        (by simp [bne, hpk])]
      by_cases hpk' : p.1 = k'
      · rw [@List.find?_cons_of_pos _ (fun q : String × α => q.1 == k') p
          (List.filter (fun q : String × α => q.1 != k) rest) (by simp [hpk']),
          @List.find?_cons_of_pos _ (fun q : String × α => q.1 == k') p rest
          (by simp [hpk'])]
      · rw [@List.find?_cons_of_neg _ (fun q : String × α => q.1 == k') p
          (List.filter (fun q : String × α => q.1 != k) rest) (by simp [hpk']),
          @List.find?_cons_of_neg _ (fun q : String × α => q.1 == k') p rest
          (by simp [hpk'])]
        exact ih

/-- A key with a non-`none` lookup is among the dict's keys. -/
theorem dictGet_ne_none_mem_keys {α : Type} (d : List (String × α))
    (k : String) (h : dictGet d k ≠ none) : k ∈ d.map Prod.fst := by
  induction d with
  | nil => simp [dictGet] at h
  | cons p rest ih =>
    simp only [dictGet] at h ih
    by_cases hpk : p.1 = k
    · simp [hpk]
    · rw [@List.find?_cons_of_neg _ (fun q : String × α => q.1 == k) p rest
        (by simp [hpk])] at h
      simpa using Or.inr (ih h)

/-- Overwriting the entry for `k` in place yields `v` at `k` when the key
was present. -/
theorem dictGet_map_overwrite {α : Type} (d : List (String × α))
    (k : String) (v : α) :
    dictGet (d.map (fun p => if p.1 == k then (k, v) else p)) k =
      if (d.find? (fun p => p.1 == k)).isSome then some v else none := by
  induction d with
  | nil => rfl
  | cons p rest ih =>
    simp only [dictGet] at ih ⊢
    by_cases hpk : p.1 = k
    · have hb' : ((p.1 == k) = true) := by simp [hpk]
      simp only [List.map_cons, hb', ite_true]
      rw [@List.find?_cons_of_pos _ (fun q : String × α => q.1 == k)
          ((k, v) : String × α)
          (rest.map (fun p => if p.1 == k then (k, v) else p)) (by simp),
        @List.find?_cons_of_pos _ (fun q : String × α => q.1 == k) p rest hb']
      simp
    · have hb' : ((p.1 == k) = false) := by simp [hpk]
      simp only [List.map_cons, hb', Bool.false_eq_true, ite_false]
      rw [@List.find?_cons_of_neg _ (fun q : String × α => q.1 == k) p
          (rest.map (fun p => if p.1 == k then (k, v) else p)) (by simp [hpk]),
        @List.find?_cons_of_neg _ (fun q : String × α => q.1 == k) p rest
          (by simp [hpk])]
      exact ih

/-- After `d[k] = v`, looking up `k` yields `v`. -/
theorem dictGet_dictInsert_self {α : Type} (d : List (String × α))
    (k : String) (v : α) : dictGet (dictInsert d k v) k = some v := by
  unfold dictInsert
  by_cases hd : (d.find? (fun p => p.1 == k)).isSome
  · rw [if_pos hd, dictGet_map_overwrite, if_pos hd]
  · rw [if_neg hd]
    induction d with
    | nil => simp [dictGet]
    | cons p rest ih =>
      by_cases hpk : p.1 = k
      · exfalso
        apply hd
        rw [@List.find?_cons_of_pos _ (fun q : String × α => q.1 == k) p rest
          (by simp [hpk])]
        rfl
      · simp only [dictGet, List.cons_append]
        rw [@List.find?_cons_of_neg _ (fun q : String × α => q.1 == k) p
          (rest ++ [(k, v)]) (by simp [hpk])]
        apply ih
        intro hs
        apply hd
        rw [@List.find?_cons_of_neg _ (fun q : String × α => q.1 == k) p rest
          (by simp [hpk])]
        exact hs

/-- After `d[k] = v`, looking up a different key is unchanged. -/
theorem dictGet_dictInsert_ne {α : Type} (d : List (String × α))
    (k k' : String) (v : α) (h : k' ≠ k) :
    dictGet (dictInsert d k v) k' = dictGet d k' := by
  have hkv : ¬ ((fun q : String × α => q.1 == k') ((k, v) : String × α) = true) := by
    simp
    exact fun hh => h hh.symm
  unfold dictInsert
  by_cases hd : (d.find? (fun p => p.1 == k)).isSome
  · rw [if_pos hd]
    clear hd
    induction d with
    | nil => rfl
    | cons p rest ih =>
      simp only [dictGet] at ih ⊢
      by_cases hpk : p.1 = k
      · have hb : ((p.1 == k) = true) := by simp [hpk]
        simp only [List.map_cons, hb, ite_true]
        rw [@List.find?_cons_of_neg _ (fun q : String × α => q.1 == k')
            ((k, v) : String × α)
            (rest.map (fun p => if p.1 == k then (k, v) else p)) hkv,
          @List.find?_cons_of_neg _ (fun q : String × α => q.1 == k') p rest
            (by simp [hpk]; exact fun hh => h hh.symm)]
        exact ih
      · have hb : ((p.1 == k) = false) := by simp [hpk]
        simp only [List.map_cons, hb, Bool.false_eq_true, ite_false]
        by_cases hpk' : p.1 = k'
        · rw [@List.find?_cons_of_pos _ (fun q : String × α => q.1 == k') p
              (rest.map (fun p => if p.1 == k then (k, v) else p))
              (by simp [hpk']),
            @List.find?_cons_of_pos _ (fun q : String × α => q.1 == k') p rest
              (by simp [hpk'])]
        · rw [@List.find?_cons_of_neg _ (fun q : String × α => q.1 == k') p
              (rest.map (fun p => if p.1 == k then (k, v) else p))
              (by simp [hpk']),
            @List.find?_cons_of_neg _ (fun q : String × α => q.1 == k') p rest
              (by simp [hpk'])]
          exact ih
  · rw [if_neg hd]
    clear hd
    induction d with
    | nil =>
      simp only [dictGet, List.nil_append]
      rw [@List.find?_cons_of_neg _ (fun q : String × α => q.1 == k')
        ((k, v) : String × α) [] hkv]
    | cons p rest ih =>
      simp only [dictGet, List.cons_append] at ih ⊢
      by_cases hpk' : p.1 = k'
      · rw [@List.find?_cons_of_pos _ (fun q : String × α => q.1 == k') p
            (rest ++ [(k, v)]) (by simp [hpk']),
          @List.find?_cons_of_pos _ (fun q : String × α => q.1 == k') p rest
            (by simp [hpk'])]
      · rw [@List.find?_cons_of_neg _ (fun q : String × α => q.1 == k') p
            (rest ++ [(k, v)]) (by simp [hpk']),
          @List.find?_cons_of_neg _ (fun q : String × α => q.1 == k') p rest
            (by simp [hpk'])]
        exact ih

/-- Every id inserted by the `all_vnats`-building fold is present. -/
theorem dictOfVnats_mem (vs : List Vnat) : ∀ (acc : List (String × Vnat))
    (k : String), (k ∈ vs.map (fun v => v.id) ∨ dictGet acc k ≠ none) →
    dictGet (vs.foldl (fun d v => dictInsert d v.id v) acc) k ≠ none := by
  induction vs with
  | nil =>
    intro acc k h
    rcases h with h | h
    · simp at h
    · simpa using h
  | cons v rest ih =>
    intro acc k h
    simp only [List.foldl_cons]
    apply ih
    rcases h with h | h
    · simp only [List.map_cons, List.mem_cons] at h
      rcases h with h | h
      · right
        rw [h, dictGet_dictInsert_self]
        simp
      · left; exact h
    · right
      by_cases hk : k = v.id
      · rw [hk, dictGet_dictInsert_self]; simp
      · rw [dictGet_dictInsert_ne _ _ _ _ hk]; exact h

/-- When every remote delete succeeds, the deletion pass raises nothing and
deletes every id handed to it. -/
theorem deleteLoop_all_ok (ok : String → Bool) (l : List String)
    (h : ∀ i ∈ l, ok i = true) : deleteLoop ok l = (none, l) := by
  induction l with
  | nil => rfl
  | cons i rest ih =>
    simp only [deleteLoop, h i (by simp)]
    rw [ih (fun j hj => h j (by simp [hj]))]
    simp

/-- When every binding of the full pull has a vserver assigned, the main
pass raises nothing, and every key of `all_vnats` that no full-pull
binding popped is still present afterwards. -/
theorem mainLoop_all_vserver (active : List Vnat) :
    ∀ (hosts : List String) (all : List (String × Vnat)) (ports : List String),
    (∀ v ∈ active, truthy v.vserver_id = true) →
    ∃ hosts' allR ports',
      mainLoop active hosts all ports = (none, hosts', allR, ports') ∧
      (∀ k, dictGet all k ≠ none → k ∉ active.map (fun v => v.id) →
        dictGet allR k ≠ none) := by
  induction active with
  | nil =>
    intro hosts all ports _
    exact ⟨hosts, all, ports, rfl, fun k hk _ => hk⟩
  | cons v rest ih =>
    intro hosts all ports h
    have hv : truthy v.vserver_id = true := h v (by simp)
    have hrest : ∀ w ∈ rest, truthy w.vserver_id = true :=
      fun w hw => h w (by simp [hw])
    by_cases hc : (dictGet all v.id).isSome
    · obtain ⟨hosts', allR, ports', heq, hpres⟩ :=
        ih (if v.vnat_type == VNAT_TYPE_HYPER then hosts ++ [v.fixed_ip_address]
            else hosts)
           (dictDelete all v.id)
           (match v.port_id with
            | some pid => if !pid.isEmpty then ports ++ [pid] else ports
            | none => ports) hrest
      refine ⟨hosts', allR, ports', ?_, ?_⟩
      · simp only [mainLoop, hc, if_pos, hv, Bool.not_true, Bool.false_eq_true,
          ite_false, ite_true]
        exact heq
      · intro k hk hnot
        simp only [List.map_cons, List.mem_cons] at hnot
        push_neg at hnot
        apply hpres
        · rw [dictGet_dictDelete_ne _ _ _ hnot.1]
          exact hk
        · exact hnot.2
    · obtain ⟨hosts', allR, ports', heq, hpres⟩ :=
        ih (if v.vnat_type == VNAT_TYPE_HYPER then hosts ++ [v.fixed_ip_address]
            else hosts) all ports hrest
      refine ⟨hosts', allR, ports', ?_, ?_⟩
      · simp only [mainLoop, hc, hv, Bool.not_true, Bool.false_eq_true,
          ite_false, if_neg]
        exact heq
      · intro k hk hnot
        simp only [List.map_cons, List.mem_cons] at hnot
        push_neg at hnot
        exact hpres k hk hnot.2

/-- The `except:` wrapper changes no effect trace. -/
theorem sync_task_trace (env : SyncEnv) (s : AgentState) :
    (sync_vnats_task_body env s).2 = (sync_body_inner env s).2.2 := by
  unfold sync_vnats_task_body
  rcases h : sync_body_inner env s with ⟨err, s', tr⟩
  rcases err with _ | e <;> rfl

/-- C9 (amended): when both pulls succeed, every binding of the full pull
has a vserver assigned and the delete RPCs succeed, every id returned by
the host-scoped pull that does not appear in the full pull is passed to
the remote `delete_vnat` before the tick body completes — but no
nat-manager operation happens during the tick: the rule pair is *not*
removed within the tick body (removal is triggered only by the separate
`vnat.delete.end` notification handler). -/
theorem C9_stale_deleted_amended (env : SyncEnv) (s : AgentState)
    (active ext : List Vnat) (stale_id : String)
    (h1 : env.active_vnats = .ok active)
    (h2 : env.ext_vnats = .ok ext)
    (h3 : ∀ v ∈ active, truthy v.vserver_id = true)
    (h4 : ∀ i, env.delete_ok i = true)
    (h5 : stale_id ∈ ext.map (fun v => v.id))
    (h6 : stale_id ∉ active.map (fun v => v.id)) :
    stale_id ∈ (sync_vnats_task_body env s).2.deleted ∧
    (sync_vnats_task_body env s).2.nat_ops = [] := by
  rw [sync_task_trace]
  obtain ⟨hosts', allR, ports', hm, hpres⟩ :=
    mainLoop_all_vserver active s.compute_hosts (dictOfVnats ext) [] h3
  have hstale : dictGet allR stale_id ≠ none := by
    apply hpres
    · show dictGet (dictOfVnats ext) stale_id ≠ none
      unfold dictOfVnats
      exact dictOfVnats_mem ext [] stale_id (Or.inl h5)
    · exact h6
  have hmem : stale_id ∈ allR.map Prod.fst :=
    dictGet_ne_none_mem_keys _ _ hstale
  have hd := deleteLoop_all_ok env.delete_ok (allR.map Prod.fst)
    (fun i _ => h4 i)
  unfold sync_body_inner
  rw [h1, h2]
  dsimp only
  rw [hm]
  dsimp only
  rw [hd]
  dsimp only
  rcases hg : env.gateway_phase ports' with e | u <;> dsimp only
  · exact ⟨hmem, rfl⟩
  · by_cases hcon : env.console_enabled <;>
      simp only [hcon, ite_true, Bool.false_eq_true, ite_false]
    · rcases hp : env.console_phase hosts' with e | hs <;> dsimp only
      · exact ⟨hmem, rfl⟩
      · exact ⟨hmem, rfl⟩
    · exact ⟨hmem, rfl⟩

/-- A binding with a vserver already assigned. -/
def vnatWithVserver : Vnat :=
  { id := "a", vnat_type := "instance", fixed_ip_address := "10.0.0.7",
    fixed_port := some "22", port_id := none, vserver_id := some "vs1",
    external_ip_address := some "198.51.100.1", external_port := some "10001",
    gateway := some "10.0.0.1" }

/-- A binding present only in the host-scoped pull (stale). -/
def vnatStale : Vnat :=
  { id := "b", vnat_type := "instance", fixed_ip_address := "10.0.0.8",
    fixed_port := some "22", port_id := none, vserver_id := some "vs2",
    external_ip_address := some "198.51.100.1", external_port := some "10002",
    gateway := some "10.0.0.1" }

/-- A tick environment whose host-scoped pull returns one stale binding. -/
def envStale : SyncEnv :=
  { active_vnats := .ok [vnatWithVserver], ext_vnats := .ok [vnatStale],
    delete_ok := fun _ => true, gateway_phase := fun _ => .ok (),
    console_enabled := false, console_phase := fun _ => .ok [] }

/-- The agent state at start-up (`needs_resync` initialised `True`). -/
def agentStart : AgentState :=
  { needs_resync := true, compute_hosts := [], vnat_info := [] }

/-- C9 counterexample: a tick with one stale binding (in the host-scoped
pull, absent from the full pull) completes without error and issues the
remote delete for it, yet performs no nat-manager operation at all — in
particular the stale binding's rule pair is not removed before the tick
completes, contrary to the claim. -/
theorem C9_counterexample_no_rule_removal_in_tick :
    (sync_vnats_task_body envStale agentStart).2.deleted = ["b"] ∧
    (sync_vnats_task_body envStale agentStart).2.nat_ops = [] ∧
    (sync_vnats_task_body envStale agentStart).1.needs_resync = false := by
  decide

/-- Witness for the amended C9 at the concrete stale-binding tick. -/
theorem C9_stale_deleted_amended_witness :
    "b" ∈ (sync_vnats_task_body envStale agentStart).2.deleted ∧
    (sync_vnats_task_body envStale agentStart).2.nat_ops = [] :=
  C9_stale_deleted_amended envStale agentStart [vnatWithVserver] [vnatStale]
    "b" rfl rfl (by decide) (fun _ => rfl) (by decide) (by decide)

/-- With enough fuel, `natDigitsRev` produces the decimal digits of `n`. -/
theorem ofDigits_natDigitsRev : ∀ fuel n, n ≤ fuel →
    Nat.ofDigits 10 (natDigitsRev fuel n) = n := by
  intro fuel
  induction fuel with
  | zero =>
    intro n h
    interval_cases n
    rfl
  | succ fuel ih =>
    intro n h
    by_cases h0 : n = 0
    · subst h0; simp [natDigitsRev, Nat.ofDigits]
    · simp only [natDigitsRev, h0, ite_false]
      rw [Nat.ofDigits_cons, ih (n / 10) ?_]
      · omega
      · have : n / 10 < n := Nat.div_lt_self (Nat.pos_of_ne_zero h0) (by norm_num)
        omega

/-- Every produced digit is below 10. -/
theorem natDigitsRev_lt : ∀ fuel n, ∀ d ∈ natDigitsRev fuel n, d < 10 := by
  intro fuel
  induction fuel with
  | zero => intro n d hd; simp [natDigitsRev] at hd
  | succ fuel ih =>
    intro n d hd
    by_cases h0 : n = 0
    · subst h0; simp [natDigitsRev] at hd
    · simp only [natDigitsRev, h0, ite_false, List.mem_cons] at hd
      rcases hd with hd | hd
      · subst hd; exact Nat.mod_lt _ (by norm_num)
      · exact ih _ _ hd

/-- `int(str(n)) = n`: parsing the printed decimal recovers the number. -/
theorem natOfStr_strOfNat (n : Nat) : natOfStr (strOfNat n) = n := by
  by_cases h0 : n = 0
  · subst h0; decide
  · unfold strOfNat
    rw [if_neg h0]
    unfold natOfStr
    have hdata : (String.mk ((natDigitsRev n n).reverse.map digitChar)).data =
        (natDigitsRev n n).reverse.map digitChar := rfl
    rw [hdata, List.map_map, List.map_reverse, List.reverse_reverse]
    have hdig : ∀ d ∈ natDigitsRev n n, (charDigit ∘ digitChar) d = d := by
      intro d hd
      have hlt : d < 10 := natDigitsRev_lt n n d hd
      show charDigit (digitChar d) = d
      unfold charDigit digitChar
      interval_cases d <;> decide
    rw [List.map_congr_left hdig]
    simpa using ofDigits_natDigitsRev n n (le_refl n)

/-- The value the scan loop's `ext_port` variable holds after a pass over
admin-up vservers: the Python 2 string-comparison maximum of the start
port and the seen ports. -/
def lexMaxPort (p : String) (l : List String) : String :=
  l.foldl (fun a b => if pyGe b a then b else a) p

/-- The scan reclaims exactly the first administratively-down vserver. -/
theorem scanVservers_fst (l : List VServer) : ∀ p,
    (scanVservers l p).1 = l.find? (fun w => !w.admin_state_up) := by
  induction l with
  | nil => intro p; rfl
  | cons vs rest ih =>
    intro p
    by_cases h : vs.admin_state_up = true
    · have hb : ((!vs.admin_state_up) = false) := by simp [h]
      simp only [scanVservers, hb, Bool.false_eq_true, ite_false]
      rw [List.find?_cons_of_neg _ (by simp [h])]
      by_cases hge : pyGe vs.external_port p = true
      · simp only [hge, ite_true]; exact ih _
      · simp only [hge, Bool.false_eq_true, ite_false]; exact ih _
    · have hb : ((!vs.admin_state_up) = true) := by simp [h]
      simp only [scanVservers, hb, ite_true]
      rw [List.find?_cons_of_pos _ (by simp [h])]

/-- With every vserver admin-up, the scan reclaims nothing and its final
`ext_port` is the string-comparison maximum. -/
theorem scanVservers_all_up (l : List VServer) : ∀ p,
    (∀ vs ∈ l, vs.admin_state_up = true) →
    scanVservers l p =
      (none, lexMaxPort p (l.map (fun w => w.external_port))) := by
  induction l with
  | nil => intro p _; rfl
  | cons vs rest ih =>
    intro p h
    have hvs : vs.admin_state_up = true := h vs (by simp)
    have hb : ((!vs.admin_state_up) = false) := by simp [hvs]
    have hrest : ∀ w ∈ rest, w.admin_state_up = true :=
      fun w hw => h w (by simp [hw])
    simp only [scanVservers, hb, Bool.false_eq_true, ite_false]
    by_cases hge : pyGe vs.external_port p = true
    · simp only [hge, ite_true]
      rw [ih _ hrest]
      simp only [lexMaxPort, List.map_cons, List.foldl_cons, hge, ite_true]
    · simp only [hge, Bool.false_eq_true, ite_false]
      rw [ih _ hrest]
      simp only [lexMaxPort, List.map_cons, List.foldl_cons, hge,
        Bool.false_eq_true, ite_false]

/-- C3 counterexample: `get_vserver` compares port *strings*
(`vs['external_port'] >= ext_port` on string columns), not numbers.  With
an existing vserver at port `"999"` and starting port `"10000"`, the
lexicographic scan keeps `"999"` (since `'9' > '1'`), so the created
vserver gets port `"1000"` — not `max(999, 10000) + 1 = 10001` as the
claim states. -/
theorem C3_counterexample_lexicographic_port :
    ((get_vserver [(⟨"vs1", "198.51.100.1", "999", true⟩ : VServer)]
        "vs2" "198.51.100.1" "10000").1.external_port = "1000") ∧
    natOfStr ((get_vserver [(⟨"vs1", "198.51.100.1", "999", true⟩ : VServer)]
        "vs2" "198.51.100.1" "10000").1.external_port) ≠
      max (natOfStr "999") (natOfStr "10000") + 1 := by
  decide

/-- C3 (amended): (1) the first administratively-down vserver at the
address is reclaimed — it is returned with its recorded port and only its
`admin_state_up` flag is set in the table; (2) otherwise a new vserver is
appended whose port is one plus the integer value of the *lexicographic*
(Python 2 string-comparison) maximum of the starting port and the ports
seen at that address — which coincides with the numeric maximum only when
the port strings have equal length; (3) from no existing vserver at the
address, two sequential allocations yield strictly increasing ports
(second = first + 1), provided the successor port string is
string-comparison ≥ the starting port (true e.g. for the default start
`"10000"`; false over a digit-length rollover). -/
theorem C3_vserver_assignment_amended (db : List VServer)
    (nid ip p0 : String) :
    (∀ vs, (db.filter (fun w => w.external_ip_address == ip)).find?
        (fun w => !w.admin_state_up) = some vs →
      get_vserver db nid ip p0 = (vs, markVserverUp db vs.id)) ∧
    ((db.filter (fun w => w.external_ip_address == ip)).find?
        (fun w => !w.admin_state_up) = none →
      (get_vserver db nid ip p0).1.external_port =
        strOfNat (natOfStr (lexMaxPort p0
          ((db.filter (fun w => w.external_ip_address == ip)).map
            (fun w => w.external_port))) + 1) ∧
      (get_vserver db nid ip p0).2 = db ++ [(get_vserver db nid ip p0).1]) ∧
    (∀ nid2, db.filter (fun w => w.external_ip_address == ip) = [] →
      pyGe (strOfNat (natOfStr p0 + 1)) p0 = true →
      (get_vserver db nid ip p0).1.external_port =
          strOfNat (natOfStr p0 + 1) ∧
      natOfStr ((get_vserver ((get_vserver db nid ip p0).2) nid2 ip
          p0).1.external_port) =
        natOfStr ((get_vserver db nid ip p0).1.external_port) + 1) := by
  refine ⟨?_, ?_, ?_⟩
  · intro vs hf
    unfold get_vserver
    dsimp only
    rcases hs : scanVservers
        (db.filter (fun w => w.external_ip_address == ip)) p0 with ⟨o, p⟩
    have ho : o = some vs := by
      have hh := scanVservers_fst
        (db.filter (fun w => w.external_ip_address == ip)) p0
      rw [hs] at hh
      simp only at hh
      rw [hh, hf]
    subst ho
    rfl
  · intro hf
    have hall : ∀ w ∈ db.filter (fun w => w.external_ip_address == ip),
        w.admin_state_up = true := by
      intro w hw
      have hh := List.find?_eq_none.mp hf w hw
      simpa using hh
    unfold get_vserver
    dsimp only
    rw [scanVservers_all_up _ _ hall]
    exact ⟨rfl, rfl⟩
  · intro nid2 hemp hge
    have h1 : get_vserver db nid ip p0 =
        ((⟨nid, ip, strOfNat (natOfStr p0 + 1), true⟩ : VServer),
         db ++ [(⟨nid, ip, strOfNat (natOfStr p0 + 1), true⟩ : VServer)]) := by
      unfold get_vserver
      dsimp only
      rw [hemp]
      rfl
    rw [h1]
    have hfilter2 : (db ++
        [(⟨nid, ip, strOfNat (natOfStr p0 + 1), true⟩ : VServer)]).filter
        (fun w => w.external_ip_address == ip) =
        [(⟨nid, ip, strOfNat (natOfStr p0 + 1), true⟩ : VServer)] := by
      rw [List.filter_append, hemp]
      simp
    refine ⟨rfl, ?_⟩
    unfold get_vserver
    dsimp only
    rw [hfilter2]
    have hscan2 : scanVservers
        [(⟨nid, ip, strOfNat (natOfStr p0 + 1), true⟩ : VServer)] p0 =
        (none, strOfNat (natOfStr p0 + 1)) := by
      simp only [scanVservers, Bool.not_true, Bool.false_eq_true, ite_false,
        hge, ite_true]
    rw [hscan2]
    simp only
    rw [natOfStr_strOfNat, natOfStr_strOfNat]

/-- Witness for the amended C3: two sequential allocations at
`198.51.100.1` starting from `"10000"` with no existing vserver. -/
theorem C3_vserver_assignment_amended_witness :
    (get_vserver [] "vsA" "198.51.100.1" "10000").1.external_port =
        strOfNat (natOfStr "10000" + 1) ∧
    natOfStr ((get_vserver ((get_vserver [] "vsA" "198.51.100.1" "10000").2)
        "vsB" "198.51.100.1" "10000").1.external_port) =
      natOfStr ((get_vserver [] "vsA" "198.51.100.1" "10000").1.external_port)
        + 1 :=
  (C3_vserver_assignment_amended [] "vsA" "198.51.100.1" "10000").2.2 "vsB"
    rfl (by decide)

/-- A vserver shared by two bindings. -/
def vsShared : VServer :=
  { id := "vs1", external_ip_address := "198.51.100.1",
    external_port := "10001", admin_state_up := true }

/-- First binding referencing `vs1`. -/
def vnatB1 : VnatRec :=
  { id := "b1", tenant_id := "t1",
    external_ip_address := some "198.51.100.1",
    external_port := some "10001", vserver_id := some "vs1",
    status := "ACTIVE", admin_state_up := true, shared := false,
    vnat_type := "instance", device_id := none, port_id := none,
    fixed_ip_address := "10.0.0.5", gateway := some "10.0.0.1",
    fixed_port := some "80" }

/-- Second binding referencing `vs1`. -/
def vnatB2 : VnatRec :=
  { id := "b2", tenant_id := "t1",
    external_ip_address := some "198.51.100.1",
    external_port := some "10001", vserver_id := some "vs1",
    status := "ACTIVE", admin_state_up := true, shared := false,
    vnat_type := "instance", device_id := none, port_id := none,
    fixed_ip_address := "10.0.0.6", gateway := some "10.0.0.1",
    fixed_port := some "80" }

/-- A database where two bindings reference the same vserver. -/
def dbTwoBindings : DbState :=
  { vnats := [vnatB1, vnatB2], vservers := [vsShared] }

/-- C8 counterexample: deleting binding `b1` clears the admin state of
vserver `vs1` even though binding `b2` still references `vs1` — the
code's clearing is unconditional, not "only if the deleted binding was
the last one referencing the vserver" as the claim states.  (The vserver
record itself survives, as the claim also says.) -/
theorem C8_counterexample_admin_cleared_not_last :
    delete_vnat dbTwoBindings "b1" [] =
      .ok ({ vnats := [vnatB2],
             vservers :=
               [(⟨"vs1", "198.51.100.1", "10001", false⟩ : VServer)] },
           []) ∧
    vnatB2.vserver_id = some "vs1" := by
  exact ⟨rfl, rfl⟩

/-- C8 (amended): whenever the deleted binding references a vserver (a
truthy `vserver_id`), `delete_vnat` clears that vserver's admin state —
unconditionally, regardless of other bindings still referencing it — and
never deletes the vserver record (the table keeps exactly the same ids);
the binding row itself is removed and one deletion notification is cast
per hosting agent. -/
theorem C8_delete_vnat_amended (db : DbState) (id : String)
    (agents : List String) (vnat : VnatRec) (vsid : String)
    (h1 : db.vnats.find? (fun r => r.id == id) = some vnat)
    (h2 : vnat.vserver_id = some vsid)
    (h3 : truthy vnat.vserver_id = true)
    (h4 : (db.vservers.find? (fun w => w.id == vsid)).isSome = true) :
    delete_vnat db id agents =
      .ok ({ vnats := db.vnats.eraseP (fun r => r.id == id),
             vservers := db.vservers.map (fun w =>
               if w.id == vsid then { w with admin_state_up := false }
               else w) },
           agents.map (fun a => Notif.vnat_deleted vnat.id a)) ∧
    (db.vservers.map (fun w =>
        if w.id == vsid then { w with admin_state_up := false } else w)).map
      (fun w => w.id) = db.vservers.map (fun w => w.id) := by
  constructor
  · unfold delete_vnat
    rw [h1]
    dsimp only
    simp only [h3, ite_true]
    rw [h2]
    dsimp only
    obtain ⟨vs, hvs⟩ := Option.isSome_iff_exists.mp h4
    rw [hvs]
  · rw [List.map_map]
    apply List.map_congr_left
    intro w _
    by_cases hw : w.id = vsid
    · simp [hw]
    · simp [hw]

/-- Witness for the amended C8 at the two-binding database. -/
theorem C8_delete_vnat_amended_witness :
    delete_vnat dbTwoBindings "b1" ["host1"] =
      .ok ({ vnats := dbTwoBindings.vnats.eraseP (fun r => r.id == "b1"),
             vservers := dbTwoBindings.vservers.map (fun w =>
               if w.id == "vs1" then { w with admin_state_up := false }
               else w) },
           ["host1"].map (fun a => Notif.vnat_deleted vnatB1.id a)) ∧
    (dbTwoBindings.vservers.map (fun w =>
        if w.id == "vs1" then { w with admin_state_up := false } else w)).map
      (fun w => w.id) = dbTwoBindings.vservers.map (fun w => w.id) :=
  C8_delete_vnat_amended dbTwoBindings "b1" ["host1"] vnatB1 "vs1"
    (by decide) rfl (by decide) (by decide)

/-- C10: when a binding with the requested fixed IP and fixed port already
exists, `create_vnat` returns the first existing row unchanged — the
database is untouched (no new record) and no creation notification is
cast; and whenever a creation notification is cast, the created binding
has both `fixed_ip_address` and `fixed_port` truthy. -/
theorem C10_create_vnat_idempotent (db : DbState) (vn_id tenant_id : String)
    (vn : VnatIn) :
    (∀ res v, resolveVserver db vn = .ok res →
      (db.vnats.filter (vnatMatches vn)).head? = some v →
      create_vnat db vn_id tenant_id vn = .ok (v, db, [])) ∧
    (∀ r db' ns, create_vnat db vn_id tenant_id vn = .ok (r, db', ns) →
      ns ≠ [] →
      r.fixed_ip_address.isEmpty = false ∧ truthy r.fixed_port = true) := by
  constructor
  · intro res v hres hhead
    unfold create_vnat
    rcases res with ⟨a, b, c⟩
    rw [hres]
    dsimp only
    rw [hhead]
  · intro r db' ns hc hns
    unfold create_vnat at hc
    rcases hres : resolveVserver db vn with e | ⟨vsid, eip, eport⟩
    · rw [hres] at hc; simp at hc
    · rw [hres] at hc
      dsimp only at hc
      rcases hh : (db.vnats.filter (vnatMatches vn)).head? with _ | v
      · rw [hh] at hc
        dsimp only at hc
        rw [Except.ok.injEq, Prod.mk.injEq, Prod.mk.injEq] at hc
        obtain ⟨hr, _, hns'⟩ := hc
        by_cases hcond : (!(vn.fixed_ip_address.isEmpty) &&
            truthy vn.fixed_port) = true
        · obtain ⟨hip, hport⟩ := Bool.and_eq_true_iff.mp hcond
          constructor
          · rw [← hr]
            simpa using hip
          · rw [← hr]
            exact hport
        · exact absurd (hns'.symm.trans (if_neg hcond)) hns
      · rw [hh] at hc
        dsimp only at hc
        rw [Except.ok.injEq, Prod.mk.injEq, Prod.mk.injEq] at hc
        exact absurd hc.2.2.symm hns

/-- A creation request whose fixed endpoint matches `vnatB1`. -/
def vnExisting : VnatIn :=
  { fixed_ip_address := "10.0.0.5", fixed_port := some "80", port_id := none,
    vnat_type := "instance", device_id := none, shared := false,
    admin_state_up := true, vserver_id := none, status := none }

/-- Witness for C10: creating over an existing fixed endpoint returns the
existing row and changes nothing. -/
theorem C10_create_vnat_idempotent_witness :
    create_vnat dbTwoBindings "n1" "tX" vnExisting =
      .ok (vnatB1, dbTwoBindings, []) :=
  (C10_create_vnat_idempotent dbTwoBindings "n1" "tX" vnExisting).1
    (none, none, none) vnatB1 rfl (by decide)

/-- A tick environment whose desired-state pull raises. -/
def envPullFails : SyncEnv :=
  { active_vnats := .error .rpcError, ext_vnats := .ok [],
    delete_ok := fun _ => true, gateway_phase := fun _ => .ok (),
    console_enabled := false, console_phase := fun _ => .ok [] }

/-- Witness for C4: a tick whose full pull raises ends with
`needs_resync = true`, and a concrete successful tick ends with
`needs_resync = false`. -/
theorem C4_needs_resync_iff_no_exception_witness :
    (sync_vnats_task_body envPullFails agentStart).1.needs_resync = true ∧
    (sync_vnats_task_body envStale agentStart).1.needs_resync = false :=
  ⟨(C4_needs_resync_iff_no_exception envPullFails agentStart).2
     PyErr.rpcError rfl,
   ((C4_needs_resync_iff_no_exception envStale agentStart).1).mpr rfl⟩
